import Mathlib

/-!
Verification of the view layer of the bibxml citation-browse GUI
(`main/views.py`).

The Python views are shallowly embedded as pure Lean functions.  External
collaborators (`search_refs_relaton_struct`, `get_indexed_ref`, `get_doi_ref`,
`list_refs`, `list_doctypes`, the `RefData` table and Django `settings`) are
modelled as components of an `Env` record, since their internals are out of
scope; the views are functions of that environment and of the request.
Python `str` values are modelled as Lean `String`; where byte-level semantics
matters (`urllib.parse.quote_plus` / `unquote_plus`), strings are converted to
their UTF-8 byte sequences (`List Nat`, bytes < 256), exactly as CPython does.
-/

namespace BibXml

/-! ## `urllib.parse.quote_plus` / `unquote_plus`, byte level

CPython's `quote_plus` encodes the string as UTF-8 and percent-escapes every
byte that is not alphanumeric and not one of `_.-~`, writing two uppercase
hex digits, except that a space byte becomes `+`.  `unquote_plus` first
replaces `+` with a space and then decodes `%XX` escapes (accepting either
hex case, leaving invalid escapes untouched), decoding the resulting bytes
as UTF-8.  -/

/-- Value of an (upper- or lowercase) ASCII hex digit byte, `none` otherwise. -/
def hexVal (b : Nat) : Option Nat :=
  if 48 ≤ b ∧ b ≤ 57 then some (b - 48)
  else if 65 ≤ b ∧ b ≤ 70 then some (b - 55)
  else if 97 ≤ b ∧ b ≤ 102 then some (b - 87)
  else none

/-- Uppercase hex digit byte for a nibble (as written by `quote_plus`). -/
def hexDigit (n : Nat) : Nat :=
  if n < 10 then n + 48 else n + 55

/-- Bytes `quote_plus` never escapes: ASCII alphanumerics and `_.-~`
(CPython's `_ALWAYS_SAFE`, with the empty `safe` set of `quote_plus`). -/
def isSafeByte (b : Nat) : Bool :=
  (48 ≤ b && b ≤ 57) || (65 ≤ b && b ≤ 90) || (97 ≤ b && b ≤ 122) ||
  (b == 95) || (b == 46) || (b == 45) || (b == 126)

/-- Encoding of one byte under `quote_plus`: safe bytes pass through, a
space becomes `+` (byte 43), anything else becomes `%` `H` `H`. -/
def quoteByte (b : Nat) : List Nat :=
  if isSafeByte b then [b]
  else if b = 32 then [43]
  else [37, hexDigit (b / 16), hexDigit (b % 16)]

/-- `urllib.parse.quote_plus` on a UTF-8 byte sequence. -/
def quote_plus_bytes (s : List Nat) : List Nat :=
  s.flatMap quoteByte

/-- `urllib.parse.unquote_plus` on a byte sequence: `+` (43) becomes a space
(32); `%` followed by two hex digits becomes the escaped byte; a `%` not
followed by two hex digits is kept literally (as CPython does).  The
single left-to-right pass is equivalent to CPython's replace-`+`-then-unquote
because neither `+` nor a space is a hex digit. -/
def unquote_bytes : List Nat → List Nat
  | [] => []
  | c :: rest =>
    if c = 43 then 32 :: unquote_bytes rest
    else if c = 37 then
      match rest with
      | a :: b :: rest2 =>
        match hexVal a, hexVal b with
        | some ha, some hb => (ha * 16 + hb) :: unquote_bytes rest2
        | _, _ => 37 :: unquote_bytes (a :: b :: rest2)
      | [a] => 37 :: unquote_bytes [a]
      | [] => [37]
    else c :: unquote_bytes rest

/-! ## UTF-8 encoding and decoding

`quote_plus` operates on the UTF-8 encoding of the string, and `unquote_plus`
decodes the unquoted bytes back as UTF-8 (`errors='replace'`; the exact
resynchronisation of the replacement policy on malformed input is modelled
byte-per-byte, which no view behaviour depends on). -/

/-- UTF-8 encoding of a Unicode code point (assumed valid, i.e. what a
`Char` carries). -/
def utf8EncodeCp (v : Nat) : List Nat :=
  if v < 0x80 then [v]
  else if v < 0x800 then [0xC0 + v / 64, 0x80 + v % 64]
  else if v < 0x10000 then
    [0xE0 + v / 4096, 0x80 + v / 64 % 64, 0x80 + v % 64]
  else
    [0xF0 + v / 262144, 0x80 + v / 4096 % 64, 0x80 + v / 64 % 64, 0x80 + v % 64]

/-- U+FFFD, emitted by `errors='replace'` for malformed bytes. -/
def replacementChar : Char := Char.ofNat 0xFFFD

/-- Decode one UTF-8-encoded character (strict on overlong forms,
surrogates and out-of-range code points, like CPython; a malformed lead or
continuation byte yields U+FFFD): the lead byte and the remaining bytes
give the character and the bytes left over. -/
def utf8DecodeStep (b : Nat) (rest : List Nat) : Char × List Nat :=
  if b < 0x80 then (Char.ofNat b, rest)
  else if 0xC2 ≤ b ∧ b ≤ 0xDF then
    match rest with
    | b2 :: rest2 =>
      if 0x80 ≤ b2 ∧ b2 ≤ 0xBF then
        (Char.ofNat ((b - 0xC0) * 64 + (b2 - 0x80)), rest2)
      else (replacementChar, rest)
    | [] => (replacementChar, [])
  else if 0xE0 ≤ b ∧ b ≤ 0xEF then
    match rest with
    | b2 :: b3 :: rest3 =>
      let v := (b - 0xE0) * 4096 + (b2 - 0x80) * 64 + (b3 - 0x80)
      if 0x80 ≤ b2 ∧ b2 ≤ 0xBF ∧ 0x80 ≤ b3 ∧ b3 ≤ 0xBF ∧
          0x800 ≤ v ∧ ¬(0xD800 ≤ v ∧ v ≤ 0xDFFF) then
        (Char.ofNat v, rest3)
      else (replacementChar, rest)
    | _ => (replacementChar, rest)
  else if 0xF0 ≤ b ∧ b ≤ 0xF4 then
    match rest with
    | b2 :: b3 :: b4 :: rest4 =>
      let v := (b - 0xF0) * 262144 + (b2 - 0x80) * 4096 +
        (b3 - 0x80) * 64 + (b4 - 0x80)
      if 0x80 ≤ b2 ∧ b2 ≤ 0xBF ∧ 0x80 ≤ b3 ∧ b3 ≤ 0xBF ∧
          0x80 ≤ b4 ∧ b4 ≤ 0xBF ∧ 0x10000 ≤ v ∧ v ≤ 0x10FFFF then
        (Char.ofNat v, rest4)
      else (replacementChar, rest)
    | _ => (replacementChar, rest)
  else (replacementChar, rest)

/-- UTF-8 decoder: decode characters until the bytes run out. -/
def utf8Decode : List Nat → List Char
  | [] => []
  | b :: rest =>
    (utf8DecodeStep b rest).1 :: utf8Decode (utf8DecodeStep b rest).2
  termination_by l => l.length
  decreasing_by
    have hle : ∀ (b : Nat) (rest : List Nat),
        (utf8DecodeStep b rest).2.length ≤ rest.length := by
      intro b rest
      unfold utf8DecodeStep
      repeat' split
      all_goals simp_all
      all_goals try (split <;> simp_all)
      all_goals omega
    simp only [List.length_cons]
    exact Nat.lt_succ_of_le (hle _ _)

/-- The UTF-8 byte sequence of a Lean/Python string. -/
def strToBytes (s : String) : List Nat :=
  (s.data.map (fun c => utf8EncodeCp c.toNat)).flatten

/-- `urllib.parse.quote_plus` on strings (the output is pure ASCII). -/
def quote_plus (s : String) : String :=
  String.mk ((quote_plus_bytes (strToBytes s)).map Char.ofNat)

/-- `urllib.parse.unquote_plus` on strings. -/
def unquote_plus (s : String) : String :=
  String.mk (utf8Decode (unquote_bytes (strToBytes s)))

/-! ## Data model

The records and collaborator signatures the views depend on.  Document
payloads (`RefData.body`, the data returned by `get_indexed_ref` /
`get_doi_ref`) are opaque to this layer and modelled as strings. -/

/-- A row of the `RefData` model: a citation record of an indexed dataset. -/
structure RefData where
  dataset : String
  ref : String
  body : String
deriving DecidableEq, Repr

/-- A docid criterion, `{'type': ..., 'id': ...}`. -/
structure DocidCriterion where
  type : String
  id : String
deriving DecidableEq, Repr

/-- The primary query structure passed to `search_refs_relaton_struct`:
`{'docid': [{'type': doctype, 'id': docid}]}`. -/
structure QueryStruct where
  docid : List DocidCriterion
deriving DecidableEq, Repr

/-- The secondary query structure passed to `search_refs_relaton_struct`:
`{'docid': {'type': doctype, 'id': docid}}`. -/
structure SecondaryStruct where
  docid : DocidCriterion
deriving DecidableEq, Repr

/-- Python exceptions the views distinguish.  `RefNotFoundError` is the
"not found" signal of `get_indexed_ref` (per the spec's contract); it is
declared in `main/exceptions.py` (not part of the sources here) and treated
as a `RuntimeError` subclass, which no handler in `main/views.py` depends
on.  `otherException` stands for any exception outside `RuntimeError`. -/
inductive PyExn where
  | refNotFoundError (msg : String)
  | runtimeError (msg : String)
  | otherException (msg : String)
deriving DecidableEq, Repr

/-- Whether `except RuntimeError` catches the exception. -/
def PyExn.isRuntimeError : PyExn → Bool
  | .refNotFoundError _ => true
  | .runtimeError _ => true
  | .otherException _ => false

/-- `str(exc)`. -/
def PyExn.message : PyExn → String
  | .refNotFoundError m => m
  | .runtimeError m => m
  | .otherException m => m

/-- Django settings consulted by the views. -/
structure Settings where
  KNOWN_DATASETS : List String
  EXTERNAL_DATASETS : List String
  AUTHORITATIVE_DATASETS : List String
  SNAPSHOT : String

/-- The environment of external collaborators: the structured index
(`main/indexed.py`), the external resolver (`main/external.py`), the
`RefData` table and the settings.  Fallible collaborators return
`Except PyExn`, modelling a raised Python exception on `.error`. -/
structure Env where
  search_refs_relaton_struct : QueryStruct → SecondaryStruct → List RefData
  get_indexed_ref : String → String → Except PyExn String
  get_doi_ref : String → Except PyExn String
  list_refs : String → List RefData
  list_doctypes : List String
  db : List RefData
  settings : Settings

/-- An HTTP request: GET query parameters and headers, as association
lists (`request.GET.get(k)` / `request.headers.get(k, d)`). -/
structure Request where
  GET : List (String × String)
  headers : List (String × String)
deriving DecidableEq, Repr

/-- `request.GET.get(key)` (`None` if absent). -/
def Request.getParam (r : Request) (key : String) : Option String :=
  r.GET.lookup key

/-- `request.headers.get(key, default)`. -/
def Request.getHeader (r : Request) (key default : String) : String :=
  (r.headers.lookup key).getD default

/-- Python truthiness of an optional string: `None` and `''` are falsy. -/
def truthy : Option String → Bool
  | none => false
  | some s => !(s == "")

/-! ## Template contexts and responses -/

/-- The `shared_context` dict passed to every GUI template. -/
structure SharedContext where
  known_datasets : List String
  indexed_datasets : List String
  external_datasets : List String
  authoritative_datasets : List String
  snapshot : String
deriving DecidableEq, Repr

/-- `shared_context` as computed at module level from `settings`:
`indexed_datasets = [ds for ds in KNOWN_DATASETS if ds not in
EXTERNAL_DATASETS]`. -/
def shared_context (s : Settings) : SharedContext :=
  { known_datasets := s.KNOWN_DATASETS
  , indexed_datasets :=
      s.KNOWN_DATASETS.filter (fun ds => !s.EXTERNAL_DATASETS.contains ds)
  , external_datasets := s.EXTERNAL_DATASETS
  , authoritative_datasets := s.AUTHORITATIVE_DATASETS
  , snapshot := s.SNAPSHOT }

/-- A template context: the shared context plus the view-specific keys
(absent keys are `none`). -/
structure Context extends SharedContext where
  dataset_id : Option String := none
  ref : Option String := none
  data : Option String := none
  total_indexed_citations : Option Nat := none
  browsable_datasets : Option (List String) := none
  doctypes : Option (List String) := none
  object_list : Option (List RefData) := none
deriving DecidableEq, Repr

/-- The context holding only the shared keys. -/
def baseContext (s : Settings) : Context :=
  { toSharedContext := shared_context s }

/-- The possible view outcomes. -/
inductive Response where
  /-- `render(request, template, ctx)`, HTTP 200. -/
  | render (template : String) (ctx : Context)
  /-- `HttpResponseNotFound(message)`, HTTP 404. -/
  | notFound (message : String)
  /-- `HttpResponseBadRequest(message)`, HTTP 400. -/
  | badRequest (message : String)
  /-- `redirect(viewName, args...)`, HTTP 302 to a reversed URL. -/
  | redirect (viewName : String) (args : List String)
  /-- `HttpResponseRedirect(url)`, HTTP 302. -/
  | redirectTo (url : String)
  /-- `error_views.server_error(request)`, the generic server-error page. -/
  | serverError
  /-- `raise Http404(message)`, rendered by the framework as HTTP 404. -/
  | http404 (message : String)
  /-- An exception not caught by the view, propagated to the framework. -/
  | uncaught (e : PyExn)
deriving DecidableEq, Repr

/-- Whether the outcome reaches the client as an HTTP 404. -/
def Response.is404 : Response → Bool
  | .notFound _ => true
  | .http404 _ => true
  | _ => false

/-- A view's outcome together with the flash messages it queued via
`messages.error`. -/
structure ViewResult where
  response : Response
  messages : List String := []
deriving DecidableEq, Repr

/-! ## The views (`main/views.py`) -/

/-- `home(request)`: landing page.  `non_empty_datasets` is the distinct
list of dataset ids appearing in `RefData`; `browsable_datasets` keeps the
indexed datasets among them. -/
def home (env : Env) (_request : Request) : ViewResult :=
  let non_empty_datasets := (env.db.map (·.dataset)).dedup
  let total_indexed_citations := env.db.length
  let browsable_datasets :=
    (shared_context env.settings).indexed_datasets.filter
      (fun ds_id => non_empty_datasets.contains ds_id)
  { response := .render "browse/home.html"
      { baseContext env.settings with
        total_indexed_citations := some total_indexed_citations
        browsable_datasets := some browsable_datasets
        doctypes := some env.list_doctypes } }

/-- `browse_citation_by_docid(request, doctype=None, docid=None)`. -/
def browse_citation_by_docid (env : Env) (request : Request)
    (doctype : Option String := none) (docid : Option String := none) :
    ViewResult :=
  if truthy doctype && truthy docid then
    let doctype := doctype.getD ""
    let docid := docid.getD ""
    let parsed_docid := unquote_plus docid
    let citations := env.search_refs_relaton_struct
      ⟨[⟨doctype, parsed_docid⟩]⟩ ⟨⟨doctype, parsed_docid⟩⟩
    match citations with
    | [citation] =>
      { response := .render "browse/citation_details.html"
          { baseContext env.settings with
            dataset_id := some citation.dataset
            ref := some citation.ref
            data := some citation.body } }
    | [] =>
      { response := .notFound
          ("Citation with docid.type " ++ doctype ++ " and docid.id " ++
           docid ++ " was not found in indexed sources") }
    | _ =>
      { response := .notFound
          ("Multiple citations with docid.type " ++ doctype ++
           " and docid.id " ++ docid ++ " were found in indexed sources") }
  else
    -- Facilitates searching by doctype via a regular HTML form.
    let doctype := request.getParam "doctype"
    let docid := request.getParam "docid"
    if !truthy doctype || !truthy docid then
      { response := .badRequest "Missing document type and/or ID" }
    else
      let doctype := doctype.getD ""
      let docid := docid.getD ""
      let citations := env.search_refs_relaton_struct
        ⟨[⟨doctype, docid⟩]⟩ ⟨⟨doctype, docid⟩⟩
      if citations.length = 1 then
        { response := .redirect "browse_citation_by_docid"
            [doctype, quote_plus docid] }
      else
        { response := .redirectTo (request.getHeader "referer" "/")
        , messages :=
            ["No reliable match for a citation matching doctype “" ++
             doctype ++ "” and ID “" ++ docid ++
             "” among indexed datasets (" ++
             toString citations.length ++ " matches)."] }

/-- `external_dataset(request, dataset_id)`. -/
def external_dataset (env : Env) (_request : Request) (dataset_id : String) :
    ViewResult :=
  { response := .render "browse/dataset.html"
      { baseContext env.settings with dataset_id := some dataset_id } }

/-- `browse_external_reference(request, dataset_id, ref=None)`. -/
def browse_external_reference (env : Env) (request : Request)
    (dataset_id : String) (ref : Option String := none) : ViewResult :=
  if truthy ref then
    let ref := ref.getD ""
    let parsed_ref := unquote_plus ref
    if dataset_id = "doi" then
      match env.get_doi_ref parsed_ref with
      | .error _ => { response := .serverError }
      | .ok data =>
        { response := .render "browse/citation_details.html"
            { baseContext env.settings with
              dataset_id := some dataset_id
              ref := some ref
              data := some data } }
    else
      { response := .badRequest "Unsupported external dataset ID" }
  else
    -- Facilitates searching via a regular HTML form.
    let ref := request.getParam "ref"
    if !truthy ref then
      { response := .badRequest "Missing dataset ID and/or reference" }
    else
      let origin := request.getHeader "referer" "/"
      let msgs :=
        if !env.settings.EXTERNAL_DATASETS.contains dataset_id then
          ["Unknown external dataset " ++ dataset_id]
        else []
      if dataset_id = "doi" then
        let ref := request.getParam "ref"
        if truthy ref then
          match env.get_doi_ref (ref.getD "") with
          | .error exc =>
            if exc.isRuntimeError then
              { response := .redirectTo origin
              , messages :=
                  msgs ++ ["Couldn’t retrieve citation: " ++ exc.message] }
            else
              -- an exception outside RuntimeError propagates
              { response := .uncaught exc, messages := msgs }
          | .ok _ =>
            { response := .redirect "browse_citation"
                [dataset_id, quote_plus (ref.getD "")]
            , messages := msgs }
        else
          { response := .redirectTo origin
          , messages := msgs ++ ["Missing reference to fetch \x7b\x7d"] }
      else
        { response := .redirectTo origin
        , messages := msgs ++ ["Unsupported external dataset " ++ dataset_id] }

/-- `browse_indexed_reference(request, dataset_id, ref)`. -/
def browse_indexed_reference (env : Env) (_request : Request)
    (dataset_id : String) (ref : String) : ViewResult :=
  let parsed_ref := unquote_plus ref
  let fetched : Except PyExn (Option String) :=
    if dataset_id = "doi" then
      match env.get_doi_ref parsed_ref with
      | .error _ => .ok none          -- inner handler: server-error page
      | .ok data => .ok (some data)
    else
      match env.get_indexed_ref dataset_id parsed_ref with
      | .error e => .error e
      | .ok data => .ok (some data)
  match fetched with
  | .ok none => { response := .serverError }
  | .ok (some data) =>
    { response := .render "browse/citation_details.html"
        { baseContext env.settings with
          dataset_id := some dataset_id
          ref := some ref
          data := some data } }
  | .error (.refNotFoundError _) =>
    { response := .http404
        ("Requested reference “" ++ parsed_ref ++
         "” could not be found in dataset “" ++ dataset_id ++
         "” (or external source is unavailable)") }
  | .error e => { response := .uncaught e }

/-- One page of a Django `Paginator(queryset, per_page)`: page numbers are
1-based and page `n` holds `queryset[(n-1)*per_page : n*per_page]`. -/
def paginate (queryset : List RefData) (per_page page : Nat) : List RefData :=
  (queryset.drop ((page - 1) * per_page)).take per_page

/-- `IndexedDatasetCitationListView` handling a GET for a page: a `ListView`
with `paginate_by = 20`, `get_queryset` returning `list_refs(dataset_id)`,
and `get_context_data` adding `dataset_id` and the shared context.  The
`ListView`/`Paginator` machinery is Django's; it presents one
`paginate_by`-sized page of the queryset as `object_list`. -/
def IndexedDatasetCitationListView (env : Env) (_request : Request)
    (dataset_id : String) (page : Nat) : ViewResult :=
  let queryset := env.list_refs dataset_id
  let object_list := paginate queryset 20 page
  { response := .render "browse/dataset.html"
      { baseContext env.settings with
        dataset_id := some dataset_id
        object_list := some object_list } }

/-! ## Concrete fixtures

Small concrete environments and requests used to evaluate the views at
specific inputs. -/

/-- A settings instance with one external and two indexed datasets. -/
def testSettings : Settings :=
  { KNOWN_DATASETS := ["rfcs", "misc", "doi"]
  , EXTERNAL_DATASETS := ["doi"]
  , AUTHORITATIVE_DATASETS := ["rfcs"]
  , SNAPSHOT := "test" }

/-- An environment in which every lookup fails: the search finds nothing,
`get_indexed_ref` raises `RefNotFoundError` and `get_doi_ref` raises
`RuntimeError`. -/
def baseEnv : Env :=
  { search_refs_relaton_struct := fun _ _ => []
  , get_indexed_ref := fun _ _ => .error (.refNotFoundError "not found")
  , get_doi_ref := fun _ => .error (.runtimeError "resolver down")
  , list_refs := fun _ => []
  , list_doctypes := []
  , db := []
  , settings := testSettings }

/-- A sample indexed citation record. -/
def sampleCitation : RefData := ⟨"rfcs", "ref8446", "relaton-body"⟩

/-- `baseEnv`, but the structured search finds exactly `sampleCitation`. -/
def envOneMatch : Env :=
  { baseEnv with search_refs_relaton_struct := fun _ _ => [sampleCitation] }

/-- `baseEnv`, but the DOI resolver succeeds. -/
def envDoiOk : Env :=
  { baseEnv with get_doi_ref := fun _ => .ok "doi-body" }

/-- `baseEnv`, but `get_indexed_ref` succeeds. -/
def envIndexedOk : Env :=
  { baseEnv with
    get_indexed_ref := fun ds r => .ok ("body:" ++ ds ++ ":" ++ r) }

/-- A request with no GET parameters and no headers. -/
def reqEmpty : Request := ⟨[], []⟩

/-- A docid-search form submission. -/
def reqForm : Request := ⟨[("doctype", "RFC"), ("docid", "8446")], []⟩

/-- An external-reference form submission with a referer header. -/
def reqRefForm : Request :=
  ⟨[("ref", "10.1000/x")], [("referer", "/prev")]⟩

/-! ## Properties of the percent-encoding layer -/

theorem hexVal_hexDigit : ∀ n < 16, hexVal (hexDigit n) = some n := by decide

theorem isSafeByte_spec {b : Nat} (h : isSafeByte b = true) :
    b ≠ 37 ∧ b ≠ 43 ∧ b < 128 := by
  simp only [isSafeByte, Bool.or_eq_true, Bool.and_eq_true, decide_eq_true_eq,
    beq_iff_eq] at h
  omega

theorem unquote_bytes_cons_other {c : Nat} (h43 : c ≠ 43) (h37 : c ≠ 37)
    (u : List Nat) : unquote_bytes (c :: u) = c :: unquote_bytes u := by
  rw [unquote_bytes.eq_def]
  simp only [if_neg h43, if_neg h37]

theorem unquote_bytes_cons_plus (u : List Nat) :
    unquote_bytes (43 :: u) = 32 :: unquote_bytes u := by
  rw [unquote_bytes.eq_def]
  simp

theorem unquote_bytes_escape {a b : Nat} (va vb : Nat)
    (ha : hexVal a = some va) (hb : hexVal b = some vb) (u : List Nat) :
    unquote_bytes (37 :: a :: b :: u) = (va * 16 + vb) :: unquote_bytes u := by
  rw [unquote_bytes.eq_def]
  simp [ha, hb]

theorem unquote_quoteByte {b : Nat} (hb : b < 256) (u : List Nat) :
    unquote_bytes (quoteByte b ++ u) = b :: unquote_bytes u := by
  by_cases hs : isSafeByte b
  · obtain ⟨h37, h43, _⟩ := isSafeByte_spec hs
    simp only [quoteByte, if_pos hs, List.cons_append, List.nil_append]
    exact unquote_bytes_cons_other h43 h37 u
  · by_cases h32 : b = 32
    · subst h32
      simp only [quoteByte, if_neg hs, if_pos rfl, List.cons_append,
        List.nil_append]
      exact unquote_bytes_cons_plus u
    · simp only [quoteByte, if_neg hs, if_neg h32, List.cons_append,
        List.nil_append]
      rw [unquote_bytes_escape (b / 16) (b % 16)
        (hexVal_hexDigit _ (by omega)) (hexVal_hexDigit _ (by omega))]
      congr 1
      omega

theorem unquote_quote_plus_bytes {s : List Nat} (h : ∀ b ∈ s, b < 256) :
    unquote_bytes (quote_plus_bytes s) = s := by
  induction s with
  | nil => rfl
  | cons b t ih =>
    have hb : b < 256 := h b (List.mem_cons_self b t)
    simp only [quote_plus_bytes, List.flatMap_cons] at *
    rw [unquote_quoteByte hb, ih (fun x hx => h x (List.mem_cons_of_mem _ hx))]

/-! ## Properties of the UTF-8 layer -/

theorem utf8Decode_cons (b : Nat) (rest : List Nat) :
    utf8Decode (b :: rest) =
      (utf8DecodeStep b rest).1 :: utf8Decode (utf8DecodeStep b rest).2 := by
  rw [utf8Decode]

theorem utf8DecodeStep_one {v : Nat} (h : v < 0x80) (u : List Nat) :
    utf8DecodeStep v u = (Char.ofNat v, u) := by
  unfold utf8DecodeStep
  rw [if_pos h]

theorem utf8DecodeStep_two {v : Nat} (h1 : 0x80 ≤ v) (h2 : v < 0x800)
    (u : List Nat) :
    utf8DecodeStep (0xC0 + v / 64) ((0x80 + v % 64) :: u) =
      (Char.ofNat v, u) := by
  unfold utf8DecodeStep
  rw [if_neg (by omega),
    if_pos (by omega : 0xC2 ≤ 0xC0 + v / 64 ∧ 0xC0 + v / 64 ≤ 0xDF)]
  simp only []
  rw [if_pos (by omega : 0x80 ≤ 0x80 + v % 64 ∧ 0x80 + v % 64 ≤ 0xBF)]
  have hv : (0xC0 + v / 64 - 0xC0) * 64 + (0x80 + v % 64 - 0x80) = v := by
    omega
  rw [hv]

theorem utf8DecodeStep_three {v : Nat} (h1 : 0x800 ≤ v) (h2 : v < 0x10000)
    (hs : ¬(0xD800 ≤ v ∧ v ≤ 0xDFFF)) (u : List Nat) :
    utf8DecodeStep (0xE0 + v / 4096)
        ((0x80 + v / 64 % 64) :: (0x80 + v % 64) :: u) =
      (Char.ofNat v, u) := by
  unfold utf8DecodeStep
  rw [if_neg (by omega), if_neg (by omega),
    if_pos (by omega : 0xE0 ≤ 0xE0 + v / 4096 ∧ 0xE0 + v / 4096 ≤ 0xEF)]
  simp only []
  have hv : (0xE0 + v / 4096 - 0xE0) * 4096 +
      (0x80 + v / 64 % 64 - 0x80) * 64 + (0x80 + v % 64 - 0x80) = v := by
    omega
  rw [if_pos (by omega)]
  rw [hv]

theorem utf8DecodeStep_four {v : Nat} (h1 : 0x10000 ≤ v) (h2 : v ≤ 0x10FFFF)
    (u : List Nat) :
    utf8DecodeStep (0xF0 + v / 262144)
        ((0x80 + v / 4096 % 64) :: (0x80 + v / 64 % 64) ::
          (0x80 + v % 64) :: u) =
      (Char.ofNat v, u) := by
  unfold utf8DecodeStep
  rw [if_neg (by omega), if_neg (by omega), if_neg (by omega),
    if_pos (by omega : 0xF0 ≤ 0xF0 + v / 262144 ∧ 0xF0 + v / 262144 ≤ 0xF4)]
  simp only []
  have hv : (0xF0 + v / 262144 - 0xF0) * 262144 +
      (0x80 + v / 4096 % 64 - 0x80) * 4096 +
      (0x80 + v / 64 % 64 - 0x80) * 64 + (0x80 + v % 64 - 0x80) = v := by
    omega
  rw [if_pos (by omega)]
  rw [hv]

theorem utf8Decode_encodeCp {v : Nat} (hv : Nat.isValidChar v)
    (u : List Nat) :
    utf8Decode (utf8EncodeCp v ++ u) = Char.ofNat v :: utf8Decode u := by
  unfold utf8EncodeCp
  split_ifs with hlt1 hlt2 hlt3
  · rw [List.cons_append, List.nil_append, utf8Decode_cons,
      utf8DecodeStep_one hlt1]
  · simp only [List.cons_append, List.nil_append]
    rw [utf8Decode_cons, utf8DecodeStep_two (by omega) hlt2]
  · have hs : ¬(0xD800 ≤ v ∧ v ≤ 0xDFFF) := by
      rcases hv with h | ⟨ha, hb⟩ <;> omega
    simp only [List.cons_append, List.nil_append]
    rw [utf8Decode_cons, utf8DecodeStep_three (by omega) hlt3 hs]
  · have hub : v < 0x110000 := by rcases hv with h | ⟨ha, hb⟩ <;> omega
    simp only [List.cons_append, List.nil_append]
    rw [utf8Decode_cons, utf8DecodeStep_four (by omega) (by omega)]

theorem utf8Decode_strToBytes (s : String) :
    utf8Decode (strToBytes s) = s.data := by
  show utf8Decode ((s.data.map (fun c => utf8EncodeCp c.toNat)).flatten) =
    s.data
  induction s.data with
  | nil =>
    simp only [List.map_nil, List.flatten_nil]
    rw [utf8Decode]
  | cons c t ih =>
    simp only [List.map_cons, List.flatten_cons]
    rw [utf8Decode_encodeCp (v := c.toNat) c.valid, ih, Char.ofNat_toNat]

theorem toNat_ofNat_of_valid {n : Nat} (h : n.isValidChar) :
    (Char.ofNat n).toNat = n := by
  unfold Char.ofNat
  rw [dif_pos h]
  rfl

theorem utf8EncodeCp_lt {v : Nat} (hv : v < 0x110000) :
    ∀ b ∈ utf8EncodeCp v, b < 256 := by
  intro b hb
  unfold utf8EncodeCp at hb
  split_ifs at hb <;>
    simp only [List.mem_cons, List.not_mem_nil, or_false] at hb <;>
    omega

theorem strToBytes_lt (s : String) : ∀ b ∈ strToBytes s, b < 256 := by
  intro b hb
  unfold strToBytes at hb
  simp only [List.mem_flatten, List.mem_map] at hb
  obtain ⟨l, ⟨c, _, rfl⟩, hbl⟩ := hb
  have hc : c.toNat < 0x110000 := by
    rcases c.valid with h | ⟨_, h⟩ <;>
      simp only [Char.toNat] at * <;> omega
  exact utf8EncodeCp_lt hc b hbl

theorem quoteByte_lt {b : Nat} (hb : b < 256) :
    ∀ x ∈ quoteByte b, x < 128 := by
  intro x hx
  unfold quoteByte at hx
  have d1 : hexDigit (b / 16) < 128 := by unfold hexDigit; split_ifs <;> omega
  have d2 : hexDigit (b % 16) < 128 := by unfold hexDigit; split_ifs <;> omega
  split_ifs at hx with hs h32
  · simp only [List.mem_cons, List.not_mem_nil, or_false] at hx
    subst hx
    exact (isSafeByte_spec hs).2.2
  · simp only [List.mem_cons, List.not_mem_nil, or_false] at hx
    omega
  · simp only [List.mem_cons, List.not_mem_nil, or_false] at hx
    rcases hx with rfl | rfl | rfl <;> omega

theorem quote_plus_bytes_lt {s : List Nat} (h : ∀ b ∈ s, b < 256) :
    ∀ x ∈ quote_plus_bytes s, x < 128 := by
  intro x hx
  unfold quote_plus_bytes at hx
  simp only [List.mem_flatMap] at hx
  obtain ⟨b, hbs, hxq⟩ := hx
  exact quoteByte_lt (h b hbs) x hxq

theorem strToBytes_of_ascii {l : List Nat} (h : ∀ b ∈ l, b < 128) :
    strToBytes (String.mk (l.map Char.ofNat)) = l := by
  unfold strToBytes
  show ((l.map Char.ofNat).map (fun c => utf8EncodeCp c.toNat)).flatten = l
  rw [List.map_map]
  induction l with
  | nil => rfl
  | cons b t ih =>
    have hb : b < 128 := h b (List.mem_cons_self b t)
    simp only [List.map_cons, List.flatten_cons, Function.comp_apply]
    rw [toNat_ofNat_of_valid (Or.inl (by omega))]
    have henc : utf8EncodeCp b = [b] := by
      unfold utf8EncodeCp
      rw [if_pos hb]
    rw [henc, ih (fun x hx => h x (List.mem_cons_of_mem _ hx))]
    rfl

/-! ## The claims -/

/-- C9: on a unique match, the form fallback of `browse_citation_by_docid`
redirects to the path-based URL with the docid encoded by `quote_plus`, and
`unquote_plus` (which the path-based branch applies) decodes it back to the
original string: `unquote_plus (quote_plus docid) = docid`, so the
redirected request queries exactly the same document ID as the form
submission. -/
theorem C9_quote_plus_roundtrip (env : Env) (request : Request)
    (doctype docid : String)
    (hdt : request.getParam "doctype" = some doctype) (hdt' : doctype ≠ "")
    (hdi : request.getParam "docid" = some docid) (hdi' : docid ≠ "")
    (huniq : (env.search_refs_relaton_struct ⟨[⟨doctype, docid⟩]⟩
      ⟨⟨doctype, docid⟩⟩).length = 1) :
    browse_citation_by_docid env request none none =
      ⟨.redirect "browse_citation_by_docid" [doctype, quote_plus docid],
        []⟩ ∧
    unquote_plus (quote_plus docid) = docid := by
  constructor
  · simp only [browse_citation_by_docid, truthy, hdt, hdi,
      Option.getD_some, huniq]
    simp [hdt', hdi']
  · unfold unquote_plus quote_plus
    rw [strToBytes_of_ascii (quote_plus_bytes_lt (strToBytes_lt docid))]
    rw [unquote_quote_plus_bytes (strToBytes_lt docid)]
    rw [utf8Decode_strToBytes]

theorem C9_quote_plus_roundtrip_witness :
    browse_citation_by_docid envOneMatch reqForm none none =
      ⟨.redirect "browse_citation_by_docid" ["RFC", quote_plus "8446"],
        []⟩ ∧
    unquote_plus (quote_plus "8446") = "8446" :=
  C9_quote_plus_roundtrip envOneMatch reqForm "RFC" "8446" rfl (by decide)
    rfl (by decide) rfl

/-- C1: with both doctype and docid supplied (non-empty) in the URL path,
`browse_citation_by_docid` queries `search_refs_relaton_struct` with the
URL-decoded docid; exactly one match renders the citation-details template
whose context carries that citation's dataset, ref and body, while zero or
more than one match yields an error (not-found) response instead of a
details page. -/
theorem C1_browse_citation_by_docid_path (env : Env) (request : Request)
    (doctype docid : String) (hdt : doctype ≠ "") (hdi : docid ≠ "") :
    (∀ c, env.search_refs_relaton_struct
        ⟨[⟨doctype, unquote_plus docid⟩]⟩
        ⟨⟨doctype, unquote_plus docid⟩⟩ = [c] →
      browse_citation_by_docid env request (some doctype) (some docid) =
        ⟨.render "browse/citation_details.html"
          { baseContext env.settings with
            dataset_id := some c.dataset
            ref := some c.ref
            data := some c.body }, []⟩) ∧
    (env.search_refs_relaton_struct
        ⟨[⟨doctype, unquote_plus docid⟩]⟩
        ⟨⟨doctype, unquote_plus docid⟩⟩ = [] →
      ∃ msg, browse_citation_by_docid env request (some doctype)
          (some docid) = ⟨.notFound msg, []⟩) ∧
    (∀ c1 c2 cs, env.search_refs_relaton_struct
        ⟨[⟨doctype, unquote_plus docid⟩]⟩
        ⟨⟨doctype, unquote_plus docid⟩⟩ = c1 :: c2 :: cs →
      ∃ msg, browse_citation_by_docid env request (some doctype)
          (some docid) = ⟨.notFound msg, []⟩) := by
  have htr : (truthy (some doctype) && truthy (some docid)) = true := by
    simp [truthy, hdt, hdi]
  refine ⟨?_, ?_, ?_⟩
  · intro c h
    simp only [browse_citation_by_docid, htr, if_true, Option.getD_some, h]
  · intro h
    exact ⟨"Citation with docid.type " ++ doctype ++ " and docid.id " ++
      docid ++ " was not found in indexed sources", by
      simp only [browse_citation_by_docid, htr, if_true, Option.getD_some,
        h]⟩
  · intro c1 c2 cs h
    exact ⟨"Multiple citations with docid.type " ++ doctype ++
      " and docid.id " ++ docid ++ " were found in indexed sources", by
      simp only [browse_citation_by_docid, htr, if_true, Option.getD_some,
        h]⟩

theorem C1_browse_citation_by_docid_path_witness :
    browse_citation_by_docid envOneMatch reqEmpty (some "RFC")
        (some "8446") =
      ⟨.render "browse/citation_details.html"
        { baseContext testSettings with
          dataset_id := some "rfcs"
          ref := some "ref8446"
          data := some "relaton-body" }, []⟩ :=
  (C1_browse_citation_by_docid_path envOneMatch reqEmpty "RFC" "8446"
    (by decide) (by decide)).1 sampleCitation rfl

/-- C2 counterexample: the claim quantifies over every request, but a
docid-search form submission (no path parameters) for which the search
finds zero matches is answered with a flash message and an HTTP 302
redirect to the referer, not with an HTTP 404. -/
theorem C2_counterexample :
    (browse_citation_by_docid baseEnv reqForm none none).response =
      .redirectTo "/" ∧
    (browse_citation_by_docid baseEnv reqForm none none).response.is404 =
      false := by
  exact ⟨rfl, rfl⟩

/-- C2 amended: for path-parameter requests, a not-found outcome (zero
matches from `search_refs_relaton_struct` in `browse_citation_by_docid`,
or `RefNotFoundError` from `get_indexed_ref` in
`browse_indexed_reference`) and an ambiguous-match outcome (more than one
match) produce an HTTP 404 response with a descriptive message; the form
fallback instead flashes an error and redirects. -/
theorem C2_amended_not_found_is_404 (env : Env) (request : Request)
    (doctype docid dataset_id ref : String)
    (hdt : doctype ≠ "") (hdi : docid ≠ "") (hds : dataset_id ≠ "doi") :
    (env.search_refs_relaton_struct
        ⟨[⟨doctype, unquote_plus docid⟩]⟩
        ⟨⟨doctype, unquote_plus docid⟩⟩ = [] →
      (browse_citation_by_docid env request (some doctype)
          (some docid)).response =
        .notFound ("Citation with docid.type " ++ doctype ++
          " and docid.id " ++ docid ++
          " was not found in indexed sources")) ∧
    (∀ c1 c2 cs, env.search_refs_relaton_struct
        ⟨[⟨doctype, unquote_plus docid⟩]⟩
        ⟨⟨doctype, unquote_plus docid⟩⟩ = c1 :: c2 :: cs →
      (browse_citation_by_docid env request (some doctype)
          (some docid)).response =
        .notFound ("Multiple citations with docid.type " ++ doctype ++
          " and docid.id " ++ docid ++
          " were found in indexed sources")) ∧
    (∀ m, env.get_indexed_ref dataset_id (unquote_plus ref) =
        .error (.refNotFoundError m) →
      (browse_indexed_reference env request dataset_id ref).response =
        .http404 ("Requested reference “" ++ unquote_plus ref ++
          "” could not be found in dataset “" ++ dataset_id ++
          "” (or external source is unavailable)")) := by
  have htr : (truthy (some doctype) && truthy (some docid)) = true := by
    simp [truthy, hdt, hdi]
  refine ⟨?_, ?_, ?_⟩
  · intro h
    simp only [browse_citation_by_docid, htr, if_true, Option.getD_some, h]
  · intro c1 c2 cs h
    simp only [browse_citation_by_docid, htr, if_true, Option.getD_some, h]
  · intro m h
    simp only [browse_indexed_reference, if_neg hds, h]

theorem C2_amended_not_found_is_404_witness :
    (browse_citation_by_docid baseEnv reqEmpty (some "RFC")
        (some "8446")).response =
      .notFound ("Citation with docid.type " ++ "RFC" ++
        " and docid.id " ++ "8446" ++
        " was not found in indexed sources") :=
  (C2_amended_not_found_is_404 baseEnv reqEmpty "RFC" "8446" "rfcs" "x"
    (by decide) (by decide) (by decide)).1 rfl

/-- C3 counterexample: the claim quantifies over every request, but in the
form fallback of `browse_external_reference` a `RuntimeError` raised by
`get_doi_ref` is answered with a flash message and a redirect to the
referer, not with the generic server-error page. -/
theorem C3_counterexample :
    (browse_external_reference baseEnv reqRefForm "doi" none).response =
      .redirectTo "/prev" ∧
    (browse_external_reference baseEnv reqRefForm "doi"
        none).response ≠ .serverError := by
  refine ⟨rfl, ?_⟩
  intro h
  exact Response.noConfusion h

/-- C3 amended: in the branches that take the reference from the URL path
(`browse_external_reference` with a non-empty ref, and
`browse_indexed_reference` for the 'doi' dataset), any exception raised by
`get_doi_ref` is answered with the generic server-error page; in the form
fallback a `RuntimeError` instead surfaces as a flash message and a
redirect. -/
theorem C3_amended_resolver_error_is_server_error (env : Env)
    (request : Request) (ref : String) (exc : PyExn) (href : ref ≠ "")
    (herr : env.get_doi_ref (unquote_plus ref) = .error exc) :
    (browse_external_reference env request "doi" (some ref)).response =
      .serverError ∧
    (browse_indexed_reference env request "doi" ref).response =
      .serverError := by
  constructor
  · simp only [browse_external_reference, truthy, Option.getD_some]
    rw [if_pos (by simp [href])]
    simp only [if_pos rfl, herr]
    simp
  · simp only [browse_indexed_reference, if_pos rfl, herr]
    simp

theorem C3_amended_resolver_error_is_server_error_witness :
    (browse_external_reference baseEnv reqEmpty "doi"
        (some "10.1000%2Fx")).response = .serverError ∧
    (browse_indexed_reference baseEnv reqEmpty "doi"
        "10.1000%2Fx").response = .serverError :=
  C3_amended_resolver_error_is_server_error baseEnv reqEmpty "10.1000%2Fx"
    (.runtimeError "resolver down") (by decide) rfl

/-- C4 counterexample: the claim quantifies over every request to
`browse_external_reference`, but with the reference supplied in the URL
path an unsupported dataset id is answered with an HTTP 400 response and
no flash message, not with a flash-and-redirect. -/
theorem C4_counterexample :
    browse_external_reference baseEnv reqEmpty "datatracker"
        (some "123") =
      ⟨.badRequest "Unsupported external dataset ID", []⟩ ∧
    ∀ url, (browse_external_reference baseEnv reqEmpty "datatracker"
        (some "123")).response ≠ .redirectTo url := by
  refine ⟨rfl, ?_⟩
  intro url h
  exact Response.noConfusion h

/-- C4 amended: in the form fallback of `browse_external_reference` (no
ref in the URL path, a non-empty ref GET parameter), a dataset id that is
not a supported external dataset (not in `EXTERNAL_DATASETS` and not
'doi') surfaces as user-facing flash error messages and the response is a
redirect back to the referring page, or to '/' when no referer header is
present; with the ref supplied in the URL path the same failure is an
HTTP 400 instead. -/
theorem C4_amended_unsupported_dataset_flash_redirect (env : Env)
    (request : Request) (dataset_id : String)
    (hns : env.settings.EXTERNAL_DATASETS.contains dataset_id = false)
    (hdoi : dataset_id ≠ "doi")
    (href : truthy (request.getParam "ref") = true) :
    browse_external_reference env request dataset_id none =
      ⟨.redirectTo (request.getHeader "referer" "/"),
        ["Unknown external dataset " ++ dataset_id,
         "Unsupported external dataset " ++ dataset_id]⟩ := by
  simp only [browse_external_reference, href, hns, Bool.not_true,
    Bool.false_eq_true, if_false, Bool.not_false, if_true, if_neg hdoi]
  simp [truthy]

theorem C4_amended_unsupported_dataset_flash_redirect_witness :
    browse_external_reference baseEnv reqRefForm "datatracker" none =
      ⟨.redirectTo "/prev",
        ["Unknown external dataset " ++ "datatracker",
         "Unsupported external dataset " ++ "datatracker"]⟩ :=
  C4_amended_unsupported_dataset_flash_redirect baseEnv reqRefForm
    "datatracker" rfl (by decide) rfl

/-- C5: the form fallback of `browse_citation_by_docid` answers a missing
or empty doctype or docid GET parameter with HTTP 400, and the form
fallback of `browse_external_reference` answers a missing or empty ref
GET parameter with HTTP 400. -/
theorem C5_missing_params_bad_request (env : Env) (request : Request)
    (pdoctype pdocid pref : Option String) (dataset_id : String) :
    ((truthy pdoctype && truthy pdocid) = false →
      (truthy (request.getParam "doctype") = false ∨
       truthy (request.getParam "docid") = false) →
      browse_citation_by_docid env request pdoctype pdocid =
        ⟨.badRequest "Missing document type and/or ID", []⟩) ∧
    (truthy pref = false →
      truthy (request.getParam "ref") = false →
      browse_external_reference env request dataset_id pref =
        ⟨.badRequest "Missing dataset ID and/or reference", []⟩) := by
  constructor
  · intro hpath hform
    simp only [browse_citation_by_docid, hpath, Bool.false_eq_true,
      if_false]
    rw [if_pos (by rcases hform with h | h <;> simp [h])]
  · intro hrefpath hrefform
    simp only [browse_external_reference, hrefpath, Bool.false_eq_true,
      if_false]
    rw [if_pos (by simp [hrefform])]

theorem C5_missing_params_bad_request_witness :
    browse_citation_by_docid baseEnv reqRefForm none none =
      ⟨.badRequest "Missing document type and/or ID", []⟩ ∧
    browse_external_reference baseEnv reqForm "doi" none =
      ⟨.badRequest "Missing dataset ID and/or reference", []⟩ :=
  ⟨(C5_missing_params_bad_request baseEnv reqRefForm none none none
      "doi").1 rfl (Or.inl rfl),
   (C5_missing_params_bad_request baseEnv reqForm none none none
      "doi").2 rfl rfl⟩

/-- C6: for a dataset other than 'doi', `browse_indexed_reference` renders
the citation-details page with the document data returned by
`get_indexed_ref(dataset_id, unquote_plus(ref))` when the reference
exists, and raises `Http404` when `get_indexed_ref` signals not-found
(`RefNotFoundError`). -/
theorem C6_browse_indexed_reference (env : Env) (request : Request)
    (dataset_id ref : String) (hds : dataset_id ≠ "doi") :
    (∀ data, env.get_indexed_ref dataset_id (unquote_plus ref) =
        .ok data →
      browse_indexed_reference env request dataset_id ref =
        ⟨.render "browse/citation_details.html"
          { baseContext env.settings with
            dataset_id := some dataset_id
            ref := some ref
            data := some data }, []⟩) ∧
    (∀ m, env.get_indexed_ref dataset_id (unquote_plus ref) =
        .error (.refNotFoundError m) →
      browse_indexed_reference env request dataset_id ref =
        ⟨.http404 ("Requested reference “" ++ unquote_plus ref ++
          "” could not be found in dataset “" ++ dataset_id ++
          "” (or external source is unavailable)"), []⟩) := by
  constructor
  · intro data h
    simp only [browse_indexed_reference, if_neg hds, h]
  · intro m h
    simp only [browse_indexed_reference, if_neg hds, h]

theorem C6_browse_indexed_reference_witness :
    browse_indexed_reference envIndexedOk reqEmpty "rfcs" "ref8446" =
      ⟨.render "browse/citation_details.html"
        { baseContext testSettings with
          dataset_id := some "rfcs"
          ref := some "ref8446"
          data := some ("body:" ++ "rfcs" ++ ":" ++
            unquote_plus "ref8446") }, []⟩ :=
  (C6_browse_indexed_reference envIndexedOk reqEmpty "rfcs" "ref8446"
    (by decide)).1 _ rfl

/-- C7: the indexed-dataset list view presents exactly
`list_refs(dataset_id)` as its object list, paginated with at most 20
citations per page, and its template context carries that same
dataset_id. -/
theorem C7_dataset_list_view (env : Env) (request : Request)
    (dataset_id : String) (page : Nat) :
    ∃ ctx, IndexedDatasetCitationListView env request dataset_id page =
      ⟨.render "browse/dataset.html" ctx, []⟩ ∧
      ctx.object_list =
        some (paginate (env.list_refs dataset_id) 20 page) ∧
      (paginate (env.list_refs dataset_id) 20 page).length ≤ 20 ∧
      ctx.dataset_id = some dataset_id := by
  refine ⟨_, rfl, rfl, ?_, rfl⟩
  unfold paginate
  rw [List.length_take]
  exact min_le_left _ _

/-- C8: for the 'doi' dataset, `browse_indexed_reference` maps every
exception raised by `get_doi_ref` (including `RefNotFoundError`) to the
generic server-error page via the inner handler, so its `Http404` branch
is unreachable and a missing DOI reference never yields a 404. -/
theorem C8_doi_branch_never_404 (env : Env) (request : Request)
    (ref : String) :
    (∀ e, env.get_doi_ref (unquote_plus ref) = .error e →
      (browse_indexed_reference env request "doi" ref).response =
        .serverError) ∧
    (∀ msg, (browse_indexed_reference env request "doi" ref).response ≠
      .http404 msg) ∧
    (browse_indexed_reference env request "doi" ref).response.is404 =
      false := by
  refine ⟨?_, ?_, ?_⟩
  · intro e h
    simp only [browse_indexed_reference, if_pos rfl, h]
    simp
  · intro msg h
    simp only [browse_indexed_reference] at h
    rcases hd : env.get_doi_ref (unquote_plus ref) with e | data <;>
      rw [hd] at h <;> simp at h
  · simp only [browse_indexed_reference]
    rcases hd : env.get_doi_ref (unquote_plus ref) with e | data <;>
      simp [Response.is404]

theorem C8_doi_branch_never_404_witness :
    (browse_indexed_reference baseEnv reqEmpty "doi" "10.17487").response =
      .serverError :=
  (C8_doi_branch_never_404 baseEnv reqEmpty "10.17487").1
    (.runtimeError "resolver down") rfl

/-- C10: `indexed_datasets` in the shared context is exactly the
subsequence of `KNOWN_DATASETS` whose members are not in
`EXTERNAL_DATASETS` (hence disjoint from `external_datasets`), and the
home view's `browsable_datasets` is a subsequence of `indexed_datasets`
containing exactly those datasets with at least one indexed record. -/
theorem C10_context_invariants (env : Env) (request : Request) :
    List.Sublist (shared_context env.settings).indexed_datasets
      (shared_context env.settings).known_datasets ∧
    (∀ ds, ds ∈ (shared_context env.settings).indexed_datasets ↔
      ds ∈ env.settings.KNOWN_DATASETS ∧
      ds ∉ (shared_context env.settings).external_datasets) ∧
    (∀ ds ∈ (shared_context env.settings).indexed_datasets,
      ds ∉ (shared_context env.settings).external_datasets) ∧
    (∃ ctx bds, home env request =
        ⟨.render "browse/home.html" ctx, []⟩ ∧
      ctx.browsable_datasets = some bds ∧
      List.Sublist bds (shared_context env.settings).indexed_datasets ∧
      (∀ ds, ds ∈ bds ↔
        ds ∈ (shared_context env.settings).indexed_datasets ∧
        ∃ r ∈ env.db, r.dataset = ds)) := by
  have hmem : ∀ ds, ds ∈ (shared_context env.settings).indexed_datasets ↔
      ds ∈ env.settings.KNOWN_DATASETS ∧
      ds ∉ (shared_context env.settings).external_datasets := by
    intro ds
    simp [shared_context, List.mem_filter]
  refine ⟨List.filter_sublist _, hmem, ?_, ?_⟩
  · intro ds hds
    exact ((hmem ds).1 hds).2
  · refine ⟨_, _, rfl, rfl, List.filter_sublist _, ?_⟩
    intro ds
    simp [List.mem_filter, List.mem_dedup, List.mem_map, eq_comm]

end BibXml
